import Mathlib

/-!
Shallow embedding of the ntp-mcp-server repository (src/app.py): the
get_current_time tool handler, its time-zone resolution, remote query,
rendering and fallback paths, modelled from the source.

Modelling conventions:
- Instants are whole seconds since the Unix epoch (Nat); the sub-second part
  of response.tx_time plays no role in the properties checked here.
- A pytz zone is modelled by its fixed UTC offset in seconds at the instants
  under consideration; pytz.timezone is a lookup db : String -> Option Int
  returning none exactly when pytz raises UnknownTimeZoneError.
- The system local zone used by datetime.astimezone() with no argument is a
  parameter localOff : Int.
- The ambient behaviour of one invocation (what c.request returns for a host,
  what reading the local clock in the fallback path yields) is a World value;
  a raised exception is the error branch of Except carrying str(e).
-/

namespace NtpMcp

/-- Model of mcp.types.TextContent as constructed in app.py lines 99-103. -/
structure TextContent where
  type : String
  text : String
  deriving Repr, DecidableEq

/-- Outcome of one call of handle_call_tool at the transport boundary: a reply
holding content items, or an uncaught exception (fault) escaping the handler,
as the ValueError of app.py line 43 does. -/
inductive CallResult where
  | reply (items : List TextContent)
  | fault (msg : String)
  deriving Repr, DecidableEq

/-- Ambient behaviour of one invocation: ntp gives the result of
c.request(host) (ok tx_time in epoch seconds, or error str(e) when the request
raises), and localNow gives the result of reading the local clock in the
fallback path of app.py lines 83-93 (error str(e2) when that raises). -/
structure World where
  ntp : String → Except String Nat
  localNow : Except String Nat

/-- Environment variables read by the handler (app.py lines 46 and 49). -/
structure EnvVars where
  NTP_SERVER : Option String
  TZ : Option String

/-- Civil date (year, month, day) of a count of days since 1970-01-01 in the
proleptic Gregorian calendar, as computed by the datetime module. -/
def civilFromDays (days : Nat) : Nat × Nat × Nat :=
  let z := days + 719468
  let era := z / 146097
  let doe := z % 146097
  let yoe := (doe - doe / 1460 + doe / 36524 - doe / 146096) / 365
  let y := yoe + era * 400
  let doy := doe - (365 * yoe + yoe / 4 - yoe / 100)
  let mp := (5 * doy + 2) / 153
  let d := doy - (153 * mp + 2) / 5 + 1
  let m := if mp < 10 then mp + 3 else mp - 9
  (if m ≤ 2 then y + 1 else y, m, d)

/-- Calendar date and wall-clock time, the fields a datetime value renders. -/
structure CivilDateTime where
  year : Nat
  month : Nat
  day : Nat
  hour : Nat
  minute : Nat
  second : Nat
  deriving Repr, DecidableEq

/-- Civil date-time of an epoch-seconds value, modelling
datetime.fromtimestamp(t, timezone.utc) at whole seconds (app.py line 69). -/
def civilOfEpoch (t : Nat) : CivilDateTime :=
  let days := t / 86400
  let rem := t % 86400
  let c := civilFromDays days
  ⟨c.1, c.2.1, c.2.2, rem / 3600, rem % 3600 / 60, rem % 60⟩

/-- Two-digit zero-padded decimal rendering. -/
def pad2 (n : Nat) : String := if n < 10 then "0" ++ toString n else toString n

/-- Four-digit zero-padded decimal rendering. -/
def pad4 (n : Nat) : String :=
  if n < 10 then "000" ++ toString n
  else if n < 100 then "00" ++ toString n
  else if n < 1000 then "0" ++ toString n
  else toString n

/-- UTC-offset tail of datetime.isoformat() for an aware datetime: sign, then
zero-padded hours and minutes separated by a colon. -/
def offsetText (off : Int) : String :=
  let a := off.natAbs
  (if off < 0 then "-" else "+") ++ pad2 (a / 3600) ++ ":" ++ pad2 (a % 3600 / 60)

/-- Rendering of datetime.isoformat() for an aware datetime at whole seconds:
YYYY-MM-DDTHH:MM:SS followed by the UTC offset. -/
def isoformat (dt : CivilDateTime) (off : Int) : String :=
  pad4 dt.year ++ "-" ++ pad2 dt.month ++ "-" ++ pad2 dt.day ++ "T" ++
    pad2 dt.hour ++ ":" ++ pad2 dt.minute ++ ":" ++ pad2 dt.second ++ offsetText off

/-- Epoch seconds whose UTC civil reading is the local civil reading of t in a
zone of fixed offset off, modelling astimezone (app.py lines 72-75); the model
is restricted to instants whose shifted value is nonnegative. -/
def localSecs (t : Nat) (off : Int) : Nat := (Int.ofNat t + off).toNat

/-- Rendering of an instant in a fixed-offset zone: the astimezone conversion
followed by isoformat (app.py lines 72-77). -/
def renderInstant (t : Nat) (off : Int) : String :=
  isoformat (civilOfEpoch (localSecs t off)) off

/-- Body of the try/except chain of handle_call_tool (app.py lines 63-97):
one remote query, zone conversion and rendering on success; on any failure the
local-clock fallback; and the terminal error string when the fallback also
raises. tzOff is the offset of the validated TZ zone, none when TZ is unset. -/
def resolveBody (w : World) (ntpServer : String) (tzOff : Option Int)
    (localOff : Int) : CallResult :=
  match w.ntp ntpServer with
  | .ok txTime =>
    let off := tzOff.getD localOff
    .reply [⟨"text", "Current time" ++ (": " ++ renderInstant txTime off)⟩]
  | .error _ =>
    match w.localNow with
    | .ok now =>
      let off := tzOff.getD localOff
      .reply [⟨"text", "Current time" ++ (" (local fallback): " ++ renderInstant now off)⟩]
    | .error e2 =>
      .reply [⟨"text", "Error: " ++ ("Failed to get time - " ++ e2)⟩]

/-- Shallow embedding of handle_call_tool (app.py lines 37-104). db models the
pytz zone database, localOff the system local zone, w the ambient world. The
second component counts how many times the network layer (c.request) was
invoked during the call: the body of app.py issues exactly one request, at
lines 65-68, and only after the TZ check has passed. -/
def handle_call_tool (db : String → Option Int) (localOff : Int) (env : EnvVars)
    (w : World) (name : String) (arguments : Option (List (String × String))) :
    CallResult × Nat :=
  if name ≠ "get_current_time" then
    (.fault ("Unknown tool: " ++ name), 0)
  else
    let ntpServer := env.NTP_SERVER.getD "pool.ntp.org"
    match env.TZ with
    | some tzName =>
      match db tzName with
      | none => (.reply [⟨"text", "Error: " ++ ("Unknown time zone: " ++ tzName)⟩], 0)
      | some off => (resolveBody w ntpServer (some off) localOff, 1)
    | none => (resolveBody w ntpServer none localOff, 1)

/-- Number of network calls made by the retry-decorated helper get_ntp_time
(app.py lines 106-110) when attempt i yields outcomes i: tenacity repeats a
failing call until stop_after_attempt 3. The helper is defined in the source
but never invoked by handle_call_tool. -/
def get_ntp_time_calls (outcomes : Nat → Except String Nat) : Nat :=
  match outcomes 0 with
  | .ok _ => 1
  | .error _ =>
    match outcomes 1 with
    | .ok _ => 2
    | .error _ => 3

/-- Zone database fragment used for concrete instances: the offsets of UTC and
of Europe/Paris on 2025-07-25 (daylight-saving time, UTC+2). -/
def dbTest : String → Option Int := fun z =>
  if z = "UTC" then some 0
  else if z = "Europe/Paris" then some 7200
  else none

/-- World in which the remote query succeeds with tx_time equal to the epoch
seconds of 2025-07-25T14:30:25Z. -/
def wOk : World := ⟨fun _ => .ok 1753453825, .ok 1753453825⟩

/-- World like wOk whose fallback clock read would raise instead. -/
def wOk2 : World := ⟨fun _ => .ok 1753453825, .error "x"⟩

/-- World in which the remote query raises and the fallback clock reads the
epoch seconds of 2025-07-25T14:30:25Z. -/
def wDown : World := ⟨fun _ => .error "timeout", .ok 1753453825⟩

/-- World in which the remote query raises and the fallback clock read also
raises. -/
def wDead : World := ⟨fun _ => .error "timeout", .error "zone database corrupt"⟩

/-- World in which the remote query succeeds one second before midnight UTC on
2025-07-25. -/
def wMidnight : World := ⟨fun _ => .ok 1753487999, .ok 1753487999⟩

/-- C1: the claim states the rendered output is exactly the three
newline-joined lines Date:, Time:, Timezone:, and that with TZ=UTC and remote
instant 2025-07-25T14:30:25Z it equals Date:2025-07-25, Time:14:30:25,
Timezone:UTC. The code instead renders the single line
Current time: 2025-07-25T14:30:25+00:00, which differs from the claimed
output, though the tests of the repository assert the three-line format. -/
theorem C1_output_format_divergence :
    (handle_call_tool dbTest 0 ⟨none, some "UTC"⟩ wOk "get_current_time" none).1 =
      .reply [⟨"text", "Current time: 2025-07-25T14:30:25+00:00"⟩] ∧
    "Current time: 2025-07-25T14:30:25+00:00" ≠
      "Date:2025-07-25\nTime:14:30:25\nTimezone:UTC" :=
  ⟨by decide, by decide⟩

/-- C2: the claim states the network exchange is attempted up to 3 times with
exponential backoff, and exactly 3 times when every attempt fails. In the code
handle_call_tool calls c.request directly exactly once and falls back after
the first failure; the retry-decorated helper get_ntp_time, which would make 3
attempts, is defined but never invoked. -/
theorem C2_no_retry_in_handler :
    (handle_call_tool dbTest 0 ⟨none, some "UTC"⟩ wDown "get_current_time" none).2 = 1 ∧
    get_ntp_time_calls (fun _ => .error "timeout") = 3 ∧
    (1 : Nat) ≠ 3 :=
  ⟨rfl, rfl, by decide⟩

/-- C3: when TZ is set to a name the zone database does not recognise, the
handler returns the single-line text Error: Unknown time zone: name at once,
with zero invocations of the network layer and no fallback rendering. -/
theorem C3_unknown_zone_short_circuit (db : String → Option Int) (localOff : Int)
    (ns : Option String) (w : World) (args : Option (List (String × String)))
    (tzName : String) (h : db tzName = none) :
    handle_call_tool db localOff ⟨ns, some tzName⟩ w "get_current_time" args =
      (.reply [⟨"text", "Error: " ++ ("Unknown time zone: " ++ tzName)⟩], 0) := by
  simp [handle_call_tool, h]

/-- C3 witness: concrete instance at the unknown name NotAZone. -/
theorem C3_unknown_zone_short_circuit_witness :
    dbTest "NotAZone" = none ∧
    handle_call_tool dbTest 0 ⟨none, some "NotAZone"⟩ wOk "get_current_time" none =
      (.reply [⟨"text", "Error: " ++ ("Unknown time zone: " ++ "NotAZone")⟩], 0) :=
  ⟨by decide,
    C3_unknown_zone_short_circuit dbTest 0 none wOk none "NotAZone" (by decide)⟩

/-- C4: the claim states the fallback result is a normal rendered timestamp,
never an error, whose zone label carries the suffix (local fallback). In the
code the fallback output is the single line
Current time (local fallback): iso, where the marker follows the words
Current time rather than a zone label: the marker is not a suffix of the
output, and the output differs from the three-line form with the suffixed
Timezone line that the tests of the repository assert. -/
theorem C4_fallback_marker_divergence :
    (handle_call_tool dbTest 0 ⟨none, some "UTC"⟩ wDown "get_current_time" none).1 =
      .reply [⟨"text", "Current time (local fallback): 2025-07-25T14:30:25+00:00"⟩] ∧
    (" (local fallback)".data.isSuffixOf
      "Current time (local fallback): 2025-07-25T14:30:25+00:00".data) = false ∧
    "Current time (local fallback): 2025-07-25T14:30:25+00:00" ≠
      "Date:2025-07-25\nTime:14:30:25\nTimezone:UTC (local fallback)" :=
  ⟨by decide, by decide, by decide⟩

/-- C5: every invocation of the get_current_time tool, whatever the zone
database, environment, network and clock behaviour, returns normally with
exactly one text content item whose text is either an error line starting
with Error: or a rendered time starting with Current time; no path raises to
the caller. -/
theorem C5_always_single_text_item (db : String → Option Int) (localOff : Int)
    (env : EnvVars) (w : World) (args : Option (List (String × String))) :
    ∃ s, (handle_call_tool db localOff env w "get_current_time" args).1 =
        .reply [⟨"text", s⟩] ∧
      ((∃ r, s = "Error: " ++ r) ∨ (∃ r, s = "Current time" ++ r)) := by
  obtain ⟨ns, tzv⟩ := env
  cases tzv with
  | none =>
    cases hn : w.ntp (ns.getD "pool.ntp.org") with
    | ok t =>
      exact ⟨"Current time" ++ (": " ++ renderInstant t localOff),
        by simp [handle_call_tool, resolveBody, hn],
        .inr ⟨": " ++ renderInstant t localOff, rfl⟩⟩
    | error e =>
      cases hl : w.localNow with
      | ok now =>
        exact ⟨"Current time" ++ (" (local fallback): " ++ renderInstant now localOff),
          by simp [handle_call_tool, resolveBody, hn, hl],
          .inr ⟨" (local fallback): " ++ renderInstant now localOff, rfl⟩⟩
      | error e2 =>
        exact ⟨"Error: " ++ ("Failed to get time - " ++ e2),
          by simp [handle_call_tool, resolveBody, hn, hl],
          .inl ⟨"Failed to get time - " ++ e2, rfl⟩⟩
  | some z =>
    cases hz : db z with
    | none =>
      exact ⟨"Error: " ++ ("Unknown time zone: " ++ z),
        by simp [handle_call_tool, hz],
        .inl ⟨"Unknown time zone: " ++ z, rfl⟩⟩
    | some off =>
      cases hn : w.ntp (ns.getD "pool.ntp.org") with
      | ok t =>
        exact ⟨"Current time" ++ (": " ++ renderInstant t off),
          by simp [handle_call_tool, resolveBody, hn, hz],
          .inr ⟨": " ++ renderInstant t off, rfl⟩⟩
      | error e =>
        cases hl : w.localNow with
        | ok now =>
          exact ⟨"Current time" ++ (" (local fallback): " ++ renderInstant now off),
            by simp [handle_call_tool, resolveBody, hn, hz, hl],
            .inr ⟨" (local fallback): " ++ renderInstant now off, rfl⟩⟩
        | error e2 =>
          exact ⟨"Error: " ++ ("Failed to get time - " ++ e2),
            by simp [handle_call_tool, resolveBody, hn, hz, hl],
            .inl ⟨"Failed to get time - " ++ e2, rfl⟩⟩

/-- C6: when the remote query raises and the fallback clock read also raises,
the handler returns the single-line text Error: Failed to get time - cause,
terminally, provided the TZ setting did not already short-circuit. -/
theorem C6_terminal_error (db : String → Option Int) (localOff : Int)
    (ns : Option String) (tzv : Option String) (w : World)
    (args : Option (List (String × String))) (e e2 : String)
    (hzone : tzv = none ∨ ∃ z off, tzv = some z ∧ db z = some off)
    (hn : w.ntp (ns.getD "pool.ntp.org") = .error e)
    (hl : w.localNow = .error e2) :
    (handle_call_tool db localOff ⟨ns, tzv⟩ w "get_current_time" args).1 =
      .reply [⟨"text", "Error: " ++ ("Failed to get time - " ++ e2)⟩] := by
  rcases hzone with h | ⟨z, off, hz, hdb⟩
  · subst h
    simp [handle_call_tool, resolveBody, hn, hl]
  · subst hz
    simp [handle_call_tool, resolveBody, hn, hl, hdb]

/-- C6 witness: concrete instance in the world whose remote query and fallback
clock read both raise. -/
theorem C6_terminal_error_witness :
    (handle_call_tool dbTest 0 ⟨none, some "UTC"⟩ wDead "get_current_time" none).1 =
      .reply [⟨"text", "Error: " ++ ("Failed to get time - " ++ "zone database corrupt")⟩] :=
  C6_terminal_error dbTest 0 none (some "UTC") wDead none "timeout" "zone database corrupt"
    (Or.inr ⟨"UTC", 0, rfl, by decide⟩) rfl rfl

/-- C7: on remote success with a valid requested zone, the rendered text is
the isoformat of the authoritative instant converted into that zone, that is,
of the civil date-time of the offset-shifted epoch value. -/
theorem C7_zone_conversion (db : String → Option Int) (localOff : Int)
    (ns : Option String) (w : World) (args : Option (List (String × String)))
    (z : String) (off : Int) (t : Nat)
    (hz : db z = some off) (hn : w.ntp (ns.getD "pool.ntp.org") = .ok t) :
    (handle_call_tool db localOff ⟨ns, some z⟩ w "get_current_time" args).1 =
      .reply [⟨"text",
        "Current time" ++ (": " ++ isoformat (civilOfEpoch (localSecs t off)) off)⟩] := by
  simp [handle_call_tool, resolveBody, hz, hn, renderInstant]

/-- C7 witness: one second before midnight UTC on 2025-07-25 converted into
Europe/Paris (UTC+2); the converted calendar date is 2025-07-26 while the UTC
calendar date is still 2025-07-25, so the rendered date crosses the boundary. -/
theorem C7_zone_conversion_witness :
    (handle_call_tool dbTest 0 ⟨none, some "Europe/Paris"⟩ wMidnight
        "get_current_time" none).1 =
      .reply [⟨"text",
        "Current time" ++ (": " ++ isoformat (civilOfEpoch (localSecs 1753487999 7200)) 7200)⟩] ∧
    civilOfEpoch (localSecs 1753487999 7200) = ⟨2025, 7, 26, 1, 59, 59⟩ ∧
    civilOfEpoch 1753487999 = ⟨2025, 7, 25, 23, 59, 59⟩ ∧
    isoformat (civilOfEpoch (localSecs 1753487999 7200)) 7200 =
      "2025-07-26T01:59:59+02:00" :=
  ⟨C7_zone_conversion dbTest 0 none wMidnight none "Europe/Paris" 7200 1753487999
      (by decide) rfl,
    by decide, by decide, by decide⟩

/-- C8: rendering a fixed instant and zone offset is deterministic: the
formatting step applied twice to the same pair gives byte-identical output,
and two invocations whose remote queries return the same instant under the
same environment produce identical content, whatever the rest of the world. -/
theorem C8_render_deterministic (t : Nat) (off localOff : Int)
    (db : String → Option Int) (env : EnvVars) (w1 w2 : World)
    (a1 a2 : Option (List (String × String)))
    (h1 : w1.ntp (env.NTP_SERVER.getD "pool.ntp.org") = .ok t)
    (h2 : w2.ntp (env.NTP_SERVER.getD "pool.ntp.org") = .ok t) :
    renderInstant t off = renderInstant t off ∧
    (handle_call_tool db localOff env w1 "get_current_time" a1).1 =
      (handle_call_tool db localOff env w2 "get_current_time" a2).1 := by
  refine ⟨rfl, ?_⟩
  obtain ⟨ns, tzv⟩ := env
  cases tzv with
  | none => simp [handle_call_tool, resolveBody, h1, h2]
  | some z =>
    cases hz : db z with
    | none => simp [handle_call_tool, hz]
    | some o => simp [handle_call_tool, resolveBody, hz, h1, h2]

/-- C8 witness: concrete instance with two worlds differing in their fallback
clocks and different argument dictionaries. -/
theorem C8_render_deterministic_witness :
    renderInstant 1753453825 0 = renderInstant 1753453825 0 ∧
    (handle_call_tool dbTest 0 ⟨none, some "UTC"⟩ wOk "get_current_time" none).1 =
      (handle_call_tool dbTest 0 ⟨none, some "UTC"⟩ wOk2 "get_current_time"
        (some [("a", "b")])).1 :=
  C8_render_deterministic 1753453825 0 0 dbTest ⟨none, some "UTC"⟩ wOk wOk2
    none (some [("a", "b")]) rfl rfl

/-- C9: a call with any tool name other than get_current_time raises a
ValueError carrying Unknown tool: name, a fault at the adapter boundary
rather than a text content reply, with no network call. -/
theorem C9_unknown_tool_fault (db : String → Option Int) (localOff : Int)
    (env : EnvVars) (w : World) (name : String)
    (args : Option (List (String × String))) (h : name ≠ "get_current_time") :
    handle_call_tool db localOff env w name args =
      (.fault ("Unknown tool: " ++ name), 0) := by
  simp [handle_call_tool, h]

/-- C9 witness: concrete instance at the tool name foo. -/
theorem C9_unknown_tool_fault_witness :
    handle_call_tool dbTest 0 ⟨none, none⟩ wOk "foo" none =
      (.fault ("Unknown tool: " ++ "foo"), 0) :=
  C9_unknown_tool_fault dbTest 0 ⟨none, none⟩ wOk "foo" none (by decide)

/-- C10: the caller-supplied arguments value has no influence on the result of
get_current_time: with identical environment, zone database, and world, any
two arguments values produce identical results. -/
theorem C10_arguments_ignored (db : String → Option Int) (localOff : Int)
    (env : EnvVars) (w : World) (a1 a2 : Option (List (String × String))) :
    handle_call_tool db localOff env w "get_current_time" a1 =
      handle_call_tool db localOff env w "get_current_time" a2 := rfl

end NtpMcp
